import Mathlib

/-!
Verification development for the Android-AgentS orchestration core.

The definitions below are a shallow embedding of the Python sources:

* `AndroidAgentS2` — the orchestrator state machine of
  `gui_agents/s2android/agents/agent_s.py` (`AndroidAgentS2.predict`,
  `update_narrative_memory`, `update_episodic_memory`).
* `AndroidVerifierAgent` — verdict parsing of
  `gui_agents/s2android/agents/verifier_agent.py`.
* `AndroidWorker` — oracle-reply parsing and message-window flushing of
  `gui_agents/s2android/agents/worker.py`.
* `AndroidACI` — index-targeted actuator operations of
  `gui_agents/s2android/agents/grounding.py`.

External collaborators (the LLM oracle, the Android environment, the JSON
library) are passed in as explicit parameters or per-iteration response
records, so every embedded function is executable.
-/

namespace PyStr

/-- Split a character list at the first occurrence of `needle` (a non-empty
pattern): the text before the occurrence and the text after it.  Returns
`none` when the pattern does not occur.  Structurally recursive so that
concrete runs reduce inside the kernel. -/
def splitFirst (needle : List Char) : List Char → Option (List Char × List Char)
  | [] => none
  | c :: rest =>
      if needle.isPrefixOf (c :: rest) then
        some ([], (c :: rest).drop needle.length)
      else
        match splitFirst needle rest with
        | none => none
        | some (pre, post) => some (c :: pre, post)

/-- Split a character list at the last occurrence of `needle` (a non-empty
pattern); `none` when the pattern does not occur. -/
def splitLast (needle : List Char) : List Char → Option (List Char × List Char)
  | [] => none
  | c :: rest =>
      match splitLast needle rest with
      | some (pre, post) => some (c :: pre, post)
      | none =>
          if needle.isPrefixOf (c :: rest) then
            some ([], (c :: rest).drop needle.length)
          else none

/-- Python `str.strip()`: drop leading and trailing whitespace. -/
def strip (cs : List Char) : List Char :=
  ((cs.dropWhile Char.isWhitespace).reverse.dropWhile Char.isWhitespace).reverse

/-- Python `str.upper()` (ASCII range, which is all the verdict markers
need). -/
def upper (s : String) : String :=
  String.mk (s.data.map Char.toUpper)

end PyStr

namespace AndroidAgentS2

/-- Subtask node (`gui_agents.s2.utils.common_utils.Node`): a short label
plus free-text instructions. -/
structure Node where
  name : String
  info : String
deriving Repr, DecidableEq

/-- Python `needle in haystack` substring test, for a non-empty needle. -/
def pyContains (haystack needle : String) : Bool :=
  (PyStr.splitFirst needle.data haystack.data).isSome

/-- Line 337 of agent_s.py: `any("FAIL" in str(action) for action in actions)`. -/
def hasFailMarker (actions : List String) : Bool :=
  actions.any (fun a => pyContains a "FAIL")

/-- Line 352 of agent_s.py: `any("DONE" in str(action) for action in actions)
or any("goal_status" in str(action) and "complete" in str(action) for action
in actions)`. -/
def hasDoneMarker (actions : List String) : Bool :=
  actions.any (fun a => pyContains a "DONE") ||
    actions.any (fun a => pyContains a "goal_status" && pyContains a "complete")

/-- The orchestrator's loop-local mutable state, exactly the variables set in
`AndroidAgentS2.reset` (agent_s.py lines 201-212).  `completed_tasks` holds
`Option Node` because line 356 of the source appends `self.current_subtask`,
an `Optional[Node]`, without a `None` check. -/
structure OrchState where
  requires_replan : Bool
  needs_next_subtask : Bool
  step_count : Nat
  turn_count : Nat
  failure_subtask : Option Node
  should_send_action : Bool
  completed_tasks : List (Option Node)
  current_subtask : Option Node
  subtasks : List Node
  search_query : String
  subtask_status : String
deriving Repr, DecidableEq

/-- The state produced by `AndroidAgentS2.reset`. -/
def resetState : OrchState where
  requires_replan := true
  needs_next_subtask := true
  step_count := 0
  turn_count := 0
  failure_subtask := none
  should_send_action := false
  completed_tasks := []
  current_subtask := none
  subtasks := []
  search_query := ""
  subtask_status := "Start"

/-- One reply of the Planner oracle (`self.planner.get_action_queue`):
the planner info dict (of which only the optional `search_query` entry is
read by `predict`) and the fresh subtask queue. -/
structure PlannerOutput where
  has_search_query : Bool
  search_query : String
  subtasks : List Node
deriving Repr, DecidableEq

/-- The oracle replies consumed by one iteration of the internal `while` loop
of `predict`: the Planner reply (used only when `requires_replan`), the
Executor's returned action list (stringified, as `predict` only inspects
`str(action)` substrings), and the Verifier verdict. -/
structure IterOracle where
  planner : PlannerOutput
  execActions : List String
  verifierSuccess : Bool
deriving Repr, DecidableEq

/-- Result of one internal loop iteration: the updated state, the local
`actions` variable, whether the Executor was invoked, and whether the
Advance step found an empty queue (the `len(self.subtasks) <= 0` branch,
agent_s.py lines 266-283). -/
structure IterResult where
  state : OrchState
  actions : List String
  executor_called : Bool
  advance_empty : Bool
deriving Repr, DecidableEq

/-- Replan step (agent_s.py lines 245-259): when `requires_replan`, replace
the queue with the planner's output, clear the flag, and refresh
`search_query` from the planner info. -/
def replanPhase (s : OrchState) (o : IterOracle) : OrchState :=
  if s.requires_replan then
    { s with
        subtasks := o.planner.subtasks
        requires_replan := false
        search_query :=
          if o.planner.has_search_query then o.planner.search_query else "" }
  else s

/-- The empty-queue branch of the Advance step (agent_s.py lines 266-283):
mark the task finished, move `current_subtask` (when set) to the completed
list, reset the executor sub-state (`step_count := 0`), and prepare the
terminal `DONE` reply. -/
def advanceDone (s : OrchState) : OrchState :=
  { s with
      requires_replan := true
      needs_next_subtask := true
      failure_subtask := none
      completed_tasks :=
        if s.current_subtask.isSome then s.completed_tasks ++ [s.current_subtask]
        else s.completed_tasks
      step_count := 0
      should_send_action := true
      subtask_status := "Done" }

/-- The verification step (agent_s.py lines 304-331), entered only when
`current_subtask` is truthy: on a failed verdict set the replan flags,
record the failure pointer, reset executor sub-state, and (if subtasks
remain) assign `should_send_action := false` — an assignment that line 334
of the source immediately overwrites. -/
def verifyPhase (s : OrchState) (o : IterOracle) : OrchState :=
  if s.current_subtask.isSome then
    if o.verifierSuccess then s
    else
      let s1 := { s with
        requires_replan := true
        needs_next_subtask := true
        failure_subtask := s.current_subtask
        step_count := 0 }
      if s1.subtasks.isEmpty then s1 else { s1 with should_send_action := false }
  else s

/-- The failure-marker branch (agent_s.py lines 337-349): replan, point
`failure_subtask` at the current subtask, reset executor sub-state, and
suppress sending when subtasks remain. -/
def failBranch (s : OrchState) : OrchState :=
  let s1 := { s with
    requires_replan := true
    needs_next_subtask := true
    failure_subtask := s.current_subtask
    step_count := 0 }
  if s1.subtasks.isEmpty then s1 else { s1 with should_send_action := false }

/-- The completion-marker branch (agent_s.py lines 352-364): replan, clear
the failure pointer, append `current_subtask` to the completed list, reset
executor sub-state, suppress sending when subtasks remain, and mark the
subtask `Done`. -/
def doneBranch (s : OrchState) : OrchState :=
  let s1 := { s with
    requires_replan := true
    needs_next_subtask := true
    failure_subtask := none
    completed_tasks := s.completed_tasks ++ [s.current_subtask]
    step_count := 0 }
  let s2 := if s1.subtasks.isEmpty then s1 else { s1 with should_send_action := false }
  { s2 with subtask_status := "Done" }

/-- Execute + Verify + outcome classification (agent_s.py lines 291-366):
invoke the Executor, bump `step_count`, verify, unconditionally set
`should_send_action := true` (line 334), then classify the action by its
FAIL / DONE markers, and bump `turn_count`. -/
def execPhase (s : OrchState) (o : IterOracle) : IterResult :=
  let sA := verifyPhase { s with step_count := s.step_count + 1 } o
  let sB := { sA with should_send_action := true }
  let sC :=
    if hasFailMarker o.execActions then failBranch sB
    else if hasDoneMarker o.execActions then doneBranch sB
    else sB
  { state := { sC with turn_count := sC.turn_count + 1 }
    actions := o.execActions
    executor_called := true
    advance_empty := false }

/-- One iteration of the `while not self.should_send_action` loop of
`AndroidAgentS2.predict` (agent_s.py lines 242-366): Replan, Advance (with
`break` on an empty queue), then Execute/Verify/classify. -/
def predictStep (s0 : OrchState) (o : IterOracle) : IterResult :=
  let s2 := replanPhase { s0 with subtask_status := "In" } o
  if s2.needs_next_subtask then
    match s2.subtasks with
    | [] =>
        { state := advanceDone s2
          actions := ["DONE"]
          executor_called := false
          advance_empty := true }
    | t :: rest =>
        execPhase { s2 with
          current_subtask := some t
          subtasks := rest
          needs_next_subtask := false
          subtask_status := "Start" } o
  else
    execPhase s2 o

/-- The internal loop of `predict`, fed one oracle record per iteration;
returns the result of the final iteration (the one that left
`should_send_action` true), or `none` when the supplied script is too
short. -/
def predictRun : List IterOracle → OrchState → Option IterResult
  | [], _ => none
  | o :: rest, s =>
      let r := predictStep s o
      if r.state.should_send_action then some r else predictRun rest r.state

/-- What a whole `predict` call hands back to the caller: the final internal
iteration, the caller-visible state (`should_send_action` cleared, line 369),
the `subtask` and `subtask_status` entries of the merged info dict
(lines 379-385), and the action list. -/
structure PredictResult where
  last : IterResult
  state : OrchState
  info_subtask : String
  info_subtask_status : String
  actions : List String
deriving Repr, DecidableEq

/-- One full `AndroidAgentS2.predict` call (agent_s.py lines 220-387),
driven by a script of per-iteration oracle replies. -/
def predict (script : List IterOracle) (s : OrchState) : Option PredictResult :=
  match predictRun script s with
  | none => none
  | some r =>
      some
        { last := r
          state := { r.state with should_send_action := false }
          info_subtask :=
            match r.state.current_subtask with
            | some c => c.name
            | none => "None"
          info_subtask_status := r.state.subtask_status
          actions := r.actions }

/-- The journal-update core of `AndroidAgentS2.update_narrative_memory`
(agent_s.py lines 408-410): insert the reflection only when `search_query`
is not yet a key of the loaded journal.  The journal is modelled as the
association list behind the JSON dict; `reflection` stands for the oracle
summary `self.planner.summarize_narrative(trajectory)`, which the source
only computes on the absent-key path. -/
def update_narrative_memory (reflections : List (String × String))
    (search_query reflection : String) : List (String × String) :=
  if (reflections.lookup search_query).isSome then reflections
  else reflections ++ [(search_query, reflection)]

/-- Key derivation of `AndroidAgentS2.update_episodic_memory` (agent_s.py
line 436): the trajectory text before the first plan separator (Python
`split(sep)[0]`, which is the whole text when the separator is absent). -/
def episodicKey (subtask_trajectory : String) : String :=
  match PyStr.splitFirst "\n----------------------\n\nPlan:\n".data
      subtask_trajectory.data with
  | none => subtask_trajectory
  | some (pre, _) => String.mk pre

/-- The journal-update core of `AndroidAgentS2.update_episodic_memory`
(agent_s.py lines 446-452): insert the summarization only when
`subtask_key` is not among the loaded journal's keys; when the key is
present the stored summary is reused and the journal is left unchanged. -/
def update_episodic_memory (kb : List (String × String))
    (subtask_key subtask_summarization : String) : List (String × String) :=
  if (kb.lookup subtask_key).isSome then kb
  else kb ++ [(subtask_key, subtask_summarization)]

end AndroidAgentS2

namespace AndroidVerifierAgent

open AndroidAgentS2 (pyContains)

/-- Verdict parsing of `AndroidVerifierAgent._parse_verification_response`
(verifier_agent.py lines 172-192): PASS when the upper-cased response
contains the PASS marker, FAIL when it contains the FAIL marker, and PASS
by default when neither can be found; the reasoning is the text from the
first `REASONING:` onward, stripped, with a fixed fallback. -/
def parse_verification_response (response : String) : Bool × String :=
  let up := PyStr.upper response
  let is_success :=
    if pyContains up "VERIFICATION_RESULT: PASS" then true
    else if pyContains up "VERIFICATION_RESULT: FAIL" then false
    else true
  let reasoning :=
    match PyStr.splitFirst "REASONING:".data response.data with
    | none => "No explicit reasoning provided"
    | some (_, post) =>
        String.mk (PyStr.strip ("REASONING:".data ++ post))
  (is_success, reasoning)

/-- One history record of `AndroidVerifierAgent.verify_execution`
(verifier_agent.py lines 65-72). -/
structure VerificationRecord where
  manager_goal : String
  verification_response : String
  is_success : Bool
  reasoning : String
deriving Repr, DecidableEq

/-- `AndroidVerifierAgent.verify_execution` (verifier_agent.py lines 28-74)
after the oracle reply `verification_response` has been received: parse the
reply, record it in the append-only history, and return the verdict. -/
def verify_execution (history : List VerificationRecord)
    (manager_goal verification_response : String) :
    (Bool × String) × List VerificationRecord :=
  let parsed := parse_verification_response verification_response
  let vrec : VerificationRecord :=
    { manager_goal := manager_goal
      verification_response := verification_response
      is_success := parsed.1
      reasoning := parsed.2 }
  (parsed, history ++ [vrec])

end AndroidVerifierAgent

namespace AndroidWorker

open AndroidAgentS2 (pyContains)

/-- Python truthiness of an optional string (`if reason and action:` treats
both `None` and the empty string as false). -/
def truthy : Option String → Bool
  | none => false
  | some s => !s.data.isEmpty

/-- The regex search for the pattern quoted in worker.py line 523
(`Reason` up to the final `Action` marker, DOTALL) followed by
`group(1).strip()`: the text between the first `Reason:` and the last
`Action:` after it, or `none` when no `Reason:` is followed by an
`Action:`. -/
def matchReasonGroup (s : String) : Option String :=
  match PyStr.splitFirst "Reason:".data s.data with
  | none => none
  | some (_, tl) =>
      match PyStr.splitLast "Action:".data tl with
      | none => none
      | some (pre, _) => some (String.mk (PyStr.strip pre))

/-- The regex search for the pattern quoted in worker.py line 525
(everything after the first `Action:` marker, DOTALL) followed by
`group(1).strip()`. -/
def matchActionGroup (s : String) : Option String :=
  match PyStr.splitFirst "Action:".data s.data with
  | none => none
  | some (_, post) => some (String.mk (PyStr.strip post))

/-- The brace search of `extract_json` (worker.py line 506): the substring
from the first opening brace to the first closing brace after it, or `none`
when the text holds no such bracketed block. -/
def firstBracedBlock (s : String) : Option String :=
  match PyStr.splitFirst "\x7b".data s.data with
  | none => none
  | some (_, afterOpen) =>
      match PyStr.splitFirst "\x7d".data afterOpen with
      | none => none
      | some (body, _) =>
          some (String.mk ("\x7b".data ++ body ++ "\x7d".data))

/-- `extract_json` of `AndroidWorker.generate_next_action` (worker.py
lines 504-519): find the first braced block and hand it to the Python
standard library (`ast.literal_eval`, falling back to `json.loads`),
modelled by the parameter `litParse`; `litParse` returns `none` both when
parsing fails and when it yields a falsy value such as the empty dict,
matching the `if action_dict:` truthiness tests of the caller. -/
def extract_json {α : Type} (litParse : String → Option α) (s : String) :
    Option α :=
  match firstBracedBlock s with
  | none => none
  | some m => litParse m

/-- `parse_reason_action_output` (worker.py lines 521-531): split the raw
oracle reply into the reasoning text and the action text, re-serializing
the action through `json.dumps` (parameter `dumps`) when a structured
action could be extracted. -/
def parse_reason_action_output {α : Type} (litParse : String → Option α)
    (dumps : α → String) (raw : String) : Option String × Option String :=
  let reason := matchReasonGroup raw
  let action :=
    match matchActionGroup raw with
    | none => none
    | some a =>
        match extract_json litParse a with
        | some d => some (dumps d)
        | none => some a
  (reason, action)

/-- An element of the action list returned by `generate_next_action`:
either the parsed action dict or the `exec_code` result string. -/
inductive WorkerAction (α : Type) where
  | dict (d : α)
  | code (s : String)
deriving Repr, DecidableEq

/-- The returned action list of `AndroidWorker.generate_next_action`
(worker.py lines 497-611, exception-free paths): when both the reasoning
and the action parse as truthy strings, return the extracted action dict,
or the failure string `FAIL: Could not parse JSON action` when no
structured action can be extracted; otherwise return the failure string
`FAIL: Could not parse plan output`. -/
def generate_next_action_result {α : Type} (litParse : String → Option α)
    (dumps : α → String) (plan : String) : List (WorkerAction α) :=
  let parsed := parse_reason_action_output litParse dumps plan
  if truthy parsed.1 && truthy parsed.2 then
    match extract_json litParse (parsed.2.getD "") with
    | some d => [WorkerAction.dict d]
    | none => [WorkerAction.code "FAIL: Could not parse JSON action"]
  else
    [WorkerAction.code "FAIL: Could not parse plan output"]

/-- One LLM conversation turn holder.  Modelled from the spec: the Oracle
interface receives "an ordered list of structured message turns"; the
concrete `LMMAgent` class (gui_agents.s2.core.mllm) is not under src/, so a
turn is abstracted to its payload and the list order. -/
structure LMMAgentState where
  messages : List String
deriving Repr, DecidableEq

/-- Modelled from the spec: `LMMAgent.add_message` appends one turn at the
end of the agent's message list (spec section 6, ordered list of message
turns; gui_agents.s2.core.mllm is not under src/). -/
def add_message (a : LMMAgentState) (m : String) : LMMAgentState :=
  ⟨a.messages ++ [m]⟩

/-- Modelled from the spec: `LMMAgent.remove_message_at` deletes the turn at
the given index; index 0 holds the system turn, so index 1 is the oldest
non-system turn (spec section 4.3, first-in-first-out eviction;
gui_agents.s2.core.mllm is not under src/). -/
def remove_message_at (a : LMMAgentState) (i : Nat) : LMMAgentState :=
  ⟨a.messages.eraseIdx i⟩

/-- `AndroidWorker.flush_messages` (worker.py lines 191-198): when the
generator agent holds more than `2 * max_trajector_length + 1` turns, drop
its two oldest non-system turns; when the reflection agent holds more than
`max_trajector_length + 1` turns, drop its oldest non-system turn. -/
def flush_messages (max_trajector_length : Nat)
    (generator_agent reflection_agent : LMMAgentState) :
    LMMAgentState × LMMAgentState :=
  let g :=
    if generator_agent.messages.length > 2 * max_trajector_length + 1 then
      remove_message_at (remove_message_at generator_agent 1) 1
    else generator_agent
  let r :=
    if reflection_agent.messages.length > max_trajector_length + 1 then
      remove_message_at reflection_agent 1
    else reflection_agent
  (g, r)

/-- The message-list effect of one `AndroidWorker.generate_next_action` call
(worker.py lines 289-319 and 470-477 and 598): the reflection agent gains
exactly one user turn (the initial-screen turn at turn 0, the cleaned
trajectory turn afterwards), the generator agent gains one user turn and
one assistant turn, and the call ends with `flush_messages`.  The turn-0
`add_system_prompt` calls replace the system turn in place and leave the
lengths unchanged. -/
def generate_next_action_messages (max_trajector_length : Nat)
    (generator_agent reflection_agent : LMMAgentState)
    (reflection_turn generator_turn plan_turn : String) :
    LMMAgentState × LMMAgentState :=
  flush_messages max_trajector_length
    (add_message (add_message generator_agent generator_turn) plan_turn)
    (add_message reflection_agent reflection_turn)

end AndroidWorker

namespace AndroidACI

/-- One Android UI element descriptor, reduced to the fields the embedded
operations consult (the index-targeted operations only use the length of
the element list). -/
structure UIElement where
  text : Option String
  content_description : Option String
deriving Repr, DecidableEq

/-- A structured action submitted to `env.execute_action`
(android_world JSONAction, restricted to the kinds the index-targeted
operations build). -/
inductive EnvAction where
  | click (index : Int)
  | long_press (index : Int)
  | input_text (index : Int) (text : String)
deriving Repr, DecidableEq

/-- The out-of-range failure string built by the index-targeted operations
(grounding.py lines 465, 482, 499). -/
def indexOutOfRangeMsg (index : Int) (n : Nat) : String :=
  "FAIL: Index " ++ toString index ++ " out of range (0-" ++
    toString ((n : Int) - 1) ++ ")"

/-- `AndroidACI.click_by_index` (grounding.py lines 457-472), as a function
of the UI element list read from `env.get_state()`: the result string plus
the environment action executed, `none` when the guard rejects the index. -/
def click_by_index (ui_elements : List UIElement) (index : Int) :
    String × Option EnvAction :=
  if index < 0 ∨ (ui_elements.length : Int) ≤ index then
    (indexOutOfRangeMsg index ui_elements.length, none)
  else
    ("SUCCESS: Clicked element at index " ++ toString index,
      some (EnvAction.click index))

/-- `AndroidACI.long_click_by_index` (grounding.py lines 474-489). -/
def long_click_by_index (ui_elements : List UIElement) (index : Int) :
    String × Option EnvAction :=
  if index < 0 ∨ (ui_elements.length : Int) ≤ index then
    (indexOutOfRangeMsg index ui_elements.length, none)
  else
    ("SUCCESS: Long clicked element at index " ++ toString index,
      some (EnvAction.long_press index))

/-- `AndroidACI.type_by_index` (grounding.py lines 491-507). -/
def type_by_index (ui_elements : List UIElement) (index : Int)
    (text : String) : String × Option EnvAction :=
  if index < 0 ∨ (ui_elements.length : Int) ≤ index then
    (indexOutOfRangeMsg index ui_elements.length, none)
  else
    ("SUCCESS: Typed '" ++ text ++ "' into element at index " ++
        toString index,
      some (EnvAction.input_text index text))

end AndroidACI

namespace ConcreteRuns

open AndroidAgentS2

/-- Concrete planner reply with an empty plan and no search query. -/
def emptyPlan : PlannerOutput where
  has_search_query := false
  search_query := ""
  subtasks := []

/-- Concrete one-iteration script: the planner judges the goal complete
(empty plan) on the very first call. -/
def firstCallScript : List IterOracle :=
  [{ planner := emptyPlan
     execActions := ["SUCCESS: opened"]
     verifierSuccess := true }]

/-- The result of `predict firstCallScript resetState`, written out. -/
def firstCallResult : PredictResult where
  last :=
    { state :=
        { requires_replan := true
          needs_next_subtask := true
          step_count := 0
          turn_count := 0
          failure_subtask := none
          should_send_action := true
          completed_tasks := []
          current_subtask := none
          subtasks := []
          search_query := ""
          subtask_status := "Done" }
      actions := ["DONE"]
      executor_called := false
      advance_empty := true }
  state :=
    { requires_replan := true
      needs_next_subtask := true
      step_count := 0
      turn_count := 0
      failure_subtask := none
      should_send_action := false
      completed_tasks := []
      current_subtask := none
      subtasks := []
      search_query := ""
      subtask_status := "Done" }
  info_subtask := "None"
  info_subtask_status := "Done"
  actions := ["DONE"]

/-- Concrete mid-run orchestrator state: subtask A is current and subtask B
is still queued. -/
def midRunState : OrchState where
  requires_replan := false
  needs_next_subtask := false
  step_count := 3
  turn_count := 3
  failure_subtask := none
  should_send_action := false
  completed_tasks := []
  current_subtask := some { name := "subtask A", info := "info A" }
  subtasks := [{ name := "subtask B", info := "info B" }]
  search_query := ""
  subtask_status := "In"

/-- Concrete iteration reply: the verifier fails while the executor returned
a plain success action with no FAIL or completion marker. -/
def failedVerdictOracle : IterOracle where
  planner := emptyPlan
  execActions := ["SUCCESS: Clicked element at index 0"]
  verifierSuccess := false

/-- Concrete iteration reply: the executor action carries a FAIL marker and
the verifier passes. -/
def failMarkerOracle : IterOracle where
  planner := emptyPlan
  execActions := ["FAIL: Could not parse JSON action"]
  verifierSuccess := true

/-- The subtask used by the repeated-failure run. -/
def subtaskT : Node where
  name := "task A"
  info := "do A"

/-- Concrete state for the repeated-failure run: subtask T is current, the
queue is empty, and one subtask was completed earlier. -/
def twoFailState : OrchState where
  requires_replan := false
  needs_next_subtask := false
  step_count := 1
  turn_count := 1
  failure_subtask := none
  should_send_action := false
  completed_tasks := [some { name := "done 0", info := "" }]
  current_subtask := some subtaskT
  subtasks := []
  search_query := ""
  subtask_status := "In"

/-- First failing iteration reply: a FAIL-marked action on subtask T. -/
def twoFailOracle1 : IterOracle where
  planner := emptyPlan
  execActions := ["FAIL: Error clicking element"]
  verifierSuccess := true

/-- Second failing iteration reply: the planner re-emits subtask T and the
executor fails on it again. -/
def twoFailOracle2 : IterOracle where
  planner := { has_search_query := false, search_query := "", subtasks := [subtaskT] }
  execActions := ["FAIL: Error clicking element again"]
  verifierSuccess := true

/-- Concrete iteration reply for the frame claim: the planner has a search
query and returns an empty plan while the executor is never reached. -/
def emptyPlanOracle : IterOracle where
  planner := { has_search_query := true, search_query := "open settings", subtasks := [] }
  execActions := ["SUCCESS: unused"]
  verifierSuccess := true

end ConcreteRuns

namespace AndroidAgentS2

@[simp] lemma replanPhase_needs_next (s : OrchState) (o : IterOracle) :
    (replanPhase s o).needs_next_subtask = s.needs_next_subtask := by
  simp only [replanPhase]; split <;> rfl

@[simp] lemma replanPhase_current (s : OrchState) (o : IterOracle) :
    (replanPhase s o).current_subtask = s.current_subtask := by
  simp only [replanPhase]; split <;> rfl

@[simp] lemma replanPhase_completed (s : OrchState) (o : IterOracle) :
    (replanPhase s o).completed_tasks = s.completed_tasks := by
  simp only [replanPhase]; split <;> rfl

lemma replanPhase_subtasks (s : OrchState) (o : IterOracle) :
    (replanPhase s o).subtasks =
      if s.requires_replan then o.planner.subtasks else s.subtasks := by
  simp only [replanPhase]; split <;> rfl

@[simp] lemma advanceDone_should (s : OrchState) :
    (advanceDone s).should_send_action = true := rfl

@[simp] lemma advanceDone_current (s : OrchState) :
    (advanceDone s).current_subtask = s.current_subtask := rfl

lemma advanceDone_completed_of_none (s : OrchState)
    (h : s.current_subtask = none) :
    (advanceDone s).completed_tasks = s.completed_tasks := by
  simp [advanceDone, h]

@[simp] lemma verifyPhase_current (s : OrchState) (o : IterOracle) :
    (verifyPhase s o).current_subtask = s.current_subtask := by
  simp only [verifyPhase]; split_ifs <;> rfl

@[simp] lemma verifyPhase_subtasks (s : OrchState) (o : IterOracle) :
    (verifyPhase s o).subtasks = s.subtasks := by
  simp only [verifyPhase]; split_ifs <;> rfl

@[simp] lemma verifyPhase_completed (s : OrchState) (o : IterOracle) :
    (verifyPhase s o).completed_tasks = s.completed_tasks := by
  simp only [verifyPhase]; split_ifs <;> rfl

lemma verifyPhase_failure_of_fail (s : OrchState) (o : IterOracle)
    (hs : s.current_subtask.isSome = true) (hv : o.verifierSuccess = false) :
    (verifyPhase s o).failure_subtask = s.current_subtask ∧
      (verifyPhase s o).requires_replan = true ∧
      (verifyPhase s o).needs_next_subtask = true ∧
      (verifyPhase s o).step_count = 0 := by
  simp only [verifyPhase, hs, hv]
  split_ifs <;> simp_all

lemma verifyPhase_of_success (s : OrchState) (o : IterOracle)
    (hv : o.verifierSuccess = true) : verifyPhase s o = s := by
  simp only [verifyPhase, hv]
  split_ifs <;> rfl

@[simp] lemma failBranch_current (s : OrchState) :
    (failBranch s).current_subtask = s.current_subtask := by
  simp only [failBranch]; split_ifs <;> rfl

@[simp] lemma failBranch_subtasks (s : OrchState) :
    (failBranch s).subtasks = s.subtasks := by
  simp only [failBranch]; split_ifs <;> rfl

@[simp] lemma failBranch_completed (s : OrchState) :
    (failBranch s).completed_tasks = s.completed_tasks := by
  simp only [failBranch]; split_ifs <;> rfl

@[simp] lemma failBranch_failure (s : OrchState) :
    (failBranch s).failure_subtask = s.current_subtask := by
  simp only [failBranch]; split_ifs <;> rfl

@[simp] lemma failBranch_requires (s : OrchState) :
    (failBranch s).requires_replan = true := by
  simp only [failBranch]; split_ifs <;> rfl

@[simp] lemma failBranch_needs (s : OrchState) :
    (failBranch s).needs_next_subtask = true := by
  simp only [failBranch]; split_ifs <;> rfl

@[simp] lemma failBranch_step (s : OrchState) :
    (failBranch s).step_count = 0 := by
  simp only [failBranch]; split_ifs <;> rfl

lemma failBranch_should_of_nonempty (s : OrchState) (h : s.subtasks ≠ []) :
    (failBranch s).should_send_action = false := by
  cases hs : s.subtasks with
  | nil => exact absurd hs h
  | cons a l => simp [failBranch, hs]

@[simp] lemma doneBranch_current (s : OrchState) :
    (doneBranch s).current_subtask = s.current_subtask := by
  simp only [doneBranch]; split_ifs <;> rfl

@[simp] lemma doneBranch_subtasks (s : OrchState) :
    (doneBranch s).subtasks = s.subtasks := by
  simp only [doneBranch]; split_ifs <;> rfl

@[simp] lemma doneBranch_completed (s : OrchState) :
    (doneBranch s).completed_tasks = s.completed_tasks ++ [s.current_subtask] := by
  simp only [doneBranch]; split_ifs <;> rfl

@[simp] lemma execPhase_actions (s : OrchState) (o : IterOracle) :
    (execPhase s o).actions = o.execActions := rfl

@[simp] lemma execPhase_executor_called (s : OrchState) (o : IterOracle) :
    (execPhase s o).executor_called = true := rfl

@[simp] lemma execPhase_advance_empty (s : OrchState) (o : IterOracle) :
    (execPhase s o).advance_empty = false := rfl

@[simp] lemma execPhase_state_current (s : OrchState) (o : IterOracle) :
    (execPhase s o).state.current_subtask = s.current_subtask := by
  simp only [execPhase]
  split_ifs <;> simp

@[simp] lemma execPhase_state_subtasks (s : OrchState) (o : IterOracle) :
    (execPhase s o).state.subtasks = s.subtasks := by
  simp only [execPhase]
  split_ifs <;> simp

lemma execPhase_completed_of_not_done (s : OrchState) (o : IterOracle)
    (hd : hasDoneMarker o.execActions = false) :
    (execPhase s o).state.completed_tasks = s.completed_tasks := by
  simp only [execPhase, hd]
  split_ifs <;> simp_all

/-- In an Execute/Verify/classify pass whose action list carries a `FAIL`
marker while subtasks remain queued, the iteration ends suppressed
(`should_send_action = false`) with the replan flags set, the failure
pointer on the current subtask, and the executor sub-state reset. -/
lemma execPhase_fail_spec (s : OrchState) (o : IterOracle)
    (hfail : hasFailMarker o.execActions = true) (hq : s.subtasks ≠ []) :
    (execPhase s o).state.should_send_action = false ∧
      (execPhase s o).state.requires_replan = true ∧
      (execPhase s o).state.needs_next_subtask = true ∧
      (execPhase s o).state.failure_subtask = s.current_subtask ∧
      (execPhase s o).state.step_count = 0 := by
  simp only [execPhase, hfail, if_true]
  refine ⟨?_, by simp, by simp, by simp, by simp⟩
  apply failBranch_should_of_nonempty
  show (verifyPhase { s with step_count := s.step_count + 1 } o).subtasks ≠ []
  rw [verifyPhase_subtasks]
  exact hq

/-- The failure pointer left by an Execute/Verify/classify pass that saw a
failed verdict (with a current subtask) or a `FAIL`-marked action, and no
completion marker, is the current subtask. -/
lemma execPhase_failure_pointer (s : OrchState) (o : IterOracle)
    (hf : (o.verifierSuccess = false ∧ s.current_subtask.isSome = true) ∨
      hasFailMarker o.execActions = true)
    (hd : hasDoneMarker o.execActions = false) :
    (execPhase s o).state.failure_subtask = s.current_subtask := by
  rcases hf with ⟨hv, hs⟩ | hfail
  · by_cases hfail : hasFailMarker o.execActions = true
    · simp only [execPhase, hfail, if_true]
      simp
    · have hfail' : hasFailMarker o.execActions = false := by
        simpa using hfail
      have h1 := verifyPhase_failure_of_fail
        { s with step_count := s.step_count + 1 } o (by simpa using hs) hv
      simp only [execPhase, hfail', hd]
      simpa using h1.1
  · simp only [execPhase, hfail, if_true]
    simp

/-- Branch structure of one `predict` loop iteration: either the Advance
step found an empty queue (the iteration breaks with the terminal `DONE`
and the Executor is skipped), or the iteration runs the
Execute/Verify/classify pass on a state with the same completed list. -/
lemma predictStep_cases (s : OrchState) (o : IterOracle) :
    (∃ s2, s2.needs_next_subtask = true ∧ s2.subtasks = [] ∧
        s2.current_subtask = s.current_subtask ∧
        s2.completed_tasks = s.completed_tasks ∧
        predictStep s o =
          { state := advanceDone s2, actions := ["DONE"],
            executor_called := false, advance_empty := true }) ∨
    (∃ s', predictStep s o = execPhase s' o ∧
        s'.completed_tasks = s.completed_tasks) := by
  simp only [predictStep]
  split
  · rename_i hneeds
    split
    · rename_i hnil
      refine Or.inl ⟨_, hneeds, hnil, by simp, by simp, rfl⟩
    · exact Or.inr ⟨_, rfl, by simp⟩
  · exact Or.inr ⟨_, rfl, by simp⟩

/-- When the Advance step is due (`needs_next_subtask`) and the queue left
by the Replan step is empty, the iteration takes the terminal branch. -/
lemma predictStep_advance_done (s : OrchState) (o : IterOracle)
    (h1 : s.needs_next_subtask = true)
    (h2 : (if s.requires_replan then o.planner.subtasks else s.subtasks) = []) :
    predictStep s o =
      { state := advanceDone (replanPhase { s with subtask_status := "In" } o),
        actions := ["DONE"], executor_called := false, advance_empty := true } := by
  have hn : (replanPhase { s with subtask_status := "In" } o).needs_next_subtask = true := by
    simp [h1]
  have hs : (replanPhase { s with subtask_status := "In" } o).subtasks = [] := by
    rw [replanPhase_subtasks]
    simpa using h2
  simp only [predictStep, hn, if_true, hs]

end AndroidAgentS2

namespace AndroidAgentS2

/-- Character of a single loop iteration when the Executor reply is not the
literal terminal list: the iteration's action list is the terminal `DONE`
list exactly when the Advance step found an empty queue, and in that case
the Executor was skipped and the loop exits. -/
lemma predictStep_done_char (s : OrchState) (o : IterOracle)
    (hne : o.execActions ≠ ["DONE"]) :
    ((predictStep s o).actions = ["DONE"] ↔ (predictStep s o).advance_empty = true) ∧
      ((predictStep s o).advance_empty = true →
        (predictStep s o).executor_called = false ∧
          (predictStep s o).state.should_send_action = true) := by
  rcases predictStep_cases s o with ⟨s2, _, _, _, _, heq⟩ | ⟨s', heq, _⟩
  · rw [heq]; simp
  · rw [heq]; simp [hne]

/-- The internal loop returns the final iteration's action list, so the
single-iteration character lifts to whole runs. -/
lemma predictRun_done_char :
    ∀ (script : List IterOracle) (s : OrchState) (r : IterResult),
      (∀ o ∈ script, o.execActions ≠ ["DONE"]) →
      predictRun script s = some r →
      ((r.actions = ["DONE"] ↔ r.advance_empty = true) ∧
        (r.advance_empty = true →
          r.executor_called = false ∧ r.state.should_send_action = true))
  | [], _, _, _, h => by simp [predictRun] at h
  | o :: rest, s, r, hne, h => by
      simp only [predictRun] at h
      split at h
      · cases h
        exact predictStep_done_char s o (hne o (List.mem_cons_self o rest))
      · exact predictRun_done_char rest _ r
          (fun o' ho' => hne o' (List.mem_cons_of_mem _ ho')) h

end AndroidAgentS2

open AndroidAgentS2 ConcreteRuns in
/-- C1: for every `predict(instruction, observation)` call (whose Executor
replies are never the literal list `["DONE"]`, as holds for every
`AndroidWorker.generate_next_action` return path), the terminal action list
`["DONE"]` is returned if and only if the Advance step of the final
iteration found the subtask queue empty; in that case the Executor is not
invoked for that iteration and the internal loop exits. -/
theorem C1_terminal_done_iff_empty_queue_at_advance
    (script : List IterOracle) (s : OrchState) (p : PredictResult)
    (hne : ∀ o ∈ script, o.execActions ≠ ["DONE"])
    (hp : predict script s = some p) :
    ((p.actions = ["DONE"]) ↔ p.last.advance_empty = true) ∧
      (p.last.advance_empty = true →
        p.last.executor_called = false ∧
          p.last.state.should_send_action = true) := by
  unfold predict at hp
  cases hr : predictRun script s with
  | none => rw [hr] at hp; cases hp
  | some r =>
      rw [hr] at hp
      cases hp
      simpa using predictRun_done_char script s r hne hr

open AndroidAgentS2 ConcreteRuns in
/-- Witness for C1 at a concrete first call whose planner returns an empty
plan. -/
theorem C1_witness :
    ((firstCallResult.actions = ["DONE"]) ↔
        firstCallResult.last.advance_empty = true) ∧
      (firstCallResult.last.advance_empty = true →
        firstCallResult.last.executor_called = false ∧
          firstCallResult.last.state.should_send_action = true) :=
  C1_terminal_done_iff_empty_queue_at_advance firstCallScript resetState
    firstCallResult (by decide) (by decide)

open AndroidAgentS2 ConcreteRuns in
/-- C2 (divergence evaluation): in the concrete iteration where the
Verifier fails on subtask A while subtask B is still queued and the action
carries no FAIL or completion marker, the orchestrator does set the replan
flags, the failure pointer, and the executor reset — but it ends the
iteration with `should_send_action = true`, so the action is sent to the
caller instead of being suppressed as the claim states (the suppression on
agent_s.py line 331 is overwritten by the unconditional line 334). -/
theorem C2_failed_verdict_flags_set_but_action_sent :
    (predictStep midRunState failedVerdictOracle).state.requires_replan = true ∧
      (predictStep midRunState failedVerdictOracle).state.needs_next_subtask = true ∧
      (predictStep midRunState failedVerdictOracle).state.failure_subtask =
        some { name := "subtask A", info := "info A" } ∧
      (predictStep midRunState failedVerdictOracle).state.step_count = 0 ∧
      (predictStep midRunState failedVerdictOracle).state.subtasks ≠ [] ∧
      failedVerdictOracle.verifierSuccess = false ∧
      (predictStep midRunState failedVerdictOracle).state.should_send_action = true := by
  decide

open AndroidAgentS2 ConcreteRuns in
/-- C3: in every `predict` iteration that runs the Executor, whose action
list carries a FAIL marker, and that leaves subtasks queued, the
orchestrator sets the replan flags, points `failure_subtask` at the current
subtask, resets the executor sub-state, and keeps `should_send_action`
false, so no action surfaces and the loop proceeds to the next subtask
within the same call. -/
theorem C3_fail_marker_suppresses_action_and_replans
    (s : OrchState) (o : IterOracle)
    (hfail : hasFailMarker o.execActions = true)
    (hexec : (predictStep s o).executor_called = true)
    (hq : (predictStep s o).state.subtasks ≠ []) :
    (predictStep s o).state.should_send_action = false ∧
      (predictStep s o).state.requires_replan = true ∧
      (predictStep s o).state.needs_next_subtask = true ∧
      (predictStep s o).state.failure_subtask =
        (predictStep s o).state.current_subtask ∧
      (predictStep s o).state.step_count = 0 := by
  rcases predictStep_cases s o with ⟨s2, _, _, _, _, heq⟩ | ⟨s', heq, _⟩
  · rw [heq] at hexec; cases hexec
  · rw [heq] at hq ⊢
    have hq' : s'.subtasks ≠ [] := by simpa using hq
    have h := execPhase_fail_spec s' o hfail hq'
    refine ⟨h.1, h.2.1, h.2.2.1, ?_, h.2.2.2.2⟩
    rw [h.2.2.2.1, execPhase_state_current]

open AndroidAgentS2 ConcreteRuns in
/-- Witness for C3 at a concrete iteration: subtask A is current, subtask B
is queued, and the executor returns a FAIL-marked parse-failure string. -/
theorem C3_witness :
    (predictStep midRunState failMarkerOracle).state.should_send_action = false ∧
      (predictStep midRunState failMarkerOracle).state.requires_replan = true ∧
      (predictStep midRunState failMarkerOracle).state.needs_next_subtask = true ∧
      (predictStep midRunState failMarkerOracle).state.failure_subtask =
        (predictStep midRunState failMarkerOracle).state.current_subtask ∧
      (predictStep midRunState failMarkerOracle).state.step_count = 0 :=
  C3_fail_marker_suppresses_action_and_replans midRunState failMarkerOracle
    (by decide) (by decide) (by decide)

open AndroidAgentS2 ConcreteRuns in
/-- C10: a `predict` call that reaches the Advance step with an empty
post-replan queue while `current_subtask` is `None` (such as the very first
call when the Planner returns an empty plan) leaves the completed list
unchanged, reports subtask `"None"` in the returned info dictionary, and
returns exactly the action list `["DONE"]`. -/
theorem C10_empty_plan_none_current_frame
    (s : OrchState) (o : IterOracle)
    (hneeds : s.needs_next_subtask = true)
    (hcur : s.current_subtask = none)
    (hq : (if s.requires_replan then o.planner.subtasks else s.subtasks) = []) :
    ∃ p, predict [o] s = some p ∧ p.actions = ["DONE"] ∧
      p.info_subtask = "None" ∧
      p.state.completed_tasks = s.completed_tasks := by
  have hstep := predictStep_advance_done s o hneeds hq
  have hcur2 :
      (replanPhase { s with subtask_status := "In" } o).current_subtask = none := by
    simp [hcur]
  have hrun : predictRun [o] s = some
      { state := advanceDone (replanPhase { s with subtask_status := "In" } o),
        actions := ["DONE"], executor_called := false, advance_empty := true } := by
    simp only [predictRun, hstep]
    simp
  have hp : predict [o] s = some
      { last :=
          { state := advanceDone (replanPhase { s with subtask_status := "In" } o)
            actions := ["DONE"], executor_called := false, advance_empty := true }
        state :=
          { advanceDone (replanPhase { s with subtask_status := "In" } o) with
              should_send_action := false }
        info_subtask :=
          match (advanceDone (replanPhase
              { s with subtask_status := "In" } o)).current_subtask with
          | some c => c.name
          | none => "None"
        info_subtask_status :=
          (advanceDone (replanPhase
            { s with subtask_status := "In" } o)).subtask_status
        actions := ["DONE"] } := by
    unfold predict
    rw [hrun]
  refine ⟨_, hp, rfl, ?_, ?_⟩
  · show (match (advanceDone (replanPhase
        { s with subtask_status := "In" } o)).current_subtask with
      | some c => c.name
      | none => "None") = "None"
    rw [advanceDone_current, hcur2]
  · show (advanceDone (replanPhase
        { s with subtask_status := "In" } o)).completed_tasks
        = s.completed_tasks
    rw [advanceDone_completed_of_none _ hcur2]
    simp

open AndroidAgentS2 ConcreteRuns in
/-- Witness for C10 at the concrete first call with an empty plan. -/
theorem C10_witness :
    ∃ p, predict [emptyPlanOracle] resetState = some p ∧
      p.actions = ["DONE"] ∧ p.info_subtask = "None" ∧
      p.state.completed_tasks = resetState.completed_tasks :=
  C10_empty_plan_none_current_frame resetState emptyPlanOracle rfl rfl (by decide)

open AndroidAgentS2 ConcreteRuns in
/-- C7: after two consecutive failure transitions on the same subtask `t`
(each iteration ran the Executor on `t`, saw a failed verdict or a
FAIL-marked action, and no completion marker, with nothing in between), the
completed list has the same length as before the first failure and the
failure pointer still references `t`. -/
theorem C7_two_failures_preserve_completed_and_pointer
    (s : OrchState) (o1 o2 : IterOracle) (t : Node)
    (h1e : (predictStep s o1).executor_called = true)
    (h1c : (predictStep s o1).state.current_subtask = some t)
    (hf1 : o1.verifierSuccess = false ∨ hasFailMarker o1.execActions = true)
    (hd1 : hasDoneMarker o1.execActions = false)
    (h2e : (predictStep (predictStep s o1).state o2).executor_called = true)
    (h2c : (predictStep (predictStep s o1).state o2).state.current_subtask = some t)
    (hf2 : o2.verifierSuccess = false ∨ hasFailMarker o2.execActions = true)
    (hd2 : hasDoneMarker o2.execActions = false) :
    (predictStep (predictStep s o1).state o2).state.completed_tasks.length
        = s.completed_tasks.length ∧
      (predictStep (predictStep s o1).state o2).state.failure_subtask = some t := by
  rcases predictStep_cases s o1 with ⟨_, _, _, _, _, heq1⟩ | ⟨s1', heq1, hc1⟩
  · rw [heq1] at h1e; cases h1e
  · rcases predictStep_cases (predictStep s o1).state o2 with
      ⟨_, _, _, _, _, heq2⟩ | ⟨s2', heq2, hc2⟩
    · rw [heq2] at h2e; cases h2e
    · have e1 : (predictStep s o1).state.completed_tasks = s.completed_tasks := by
        rw [heq1, execPhase_completed_of_not_done _ _ hd1, hc1]
      have e2 : (predictStep (predictStep s o1).state o2).state.completed_tasks
          = s.completed_tasks := by
        rw [heq2, execPhase_completed_of_not_done _ _ hd2, hc2, e1]
      have hcur2 : s2'.current_subtask = some t := by
        rw [heq2, execPhase_state_current] at h2c
        exact h2c
      refine ⟨by rw [e2], ?_⟩
      rw [heq2]
      rw [execPhase_failure_pointer s2' o2 ?_ hd2, hcur2]
      rcases hf2 with hv | hm
      · exact Or.inl ⟨hv, by rw [hcur2]; rfl⟩
      · exact Or.inr hm

open AndroidAgentS2 ConcreteRuns in
/-- Witness for C7: subtask T fails twice in a row (FAIL-marked actions),
with the planner re-emitting T between the failures. -/
theorem C7_witness :
    (predictStep (predictStep twoFailState twoFailOracle1).state
        twoFailOracle2).state.completed_tasks.length
        = twoFailState.completed_tasks.length ∧
      (predictStep (predictStep twoFailState twoFailOracle1).state
          twoFailOracle2).state.failure_subtask = some subtaskT :=
  C7_two_failures_preserve_completed_and_pointer twoFailState twoFailOracle1
    twoFailOracle2 subtaskT (by decide) (by decide) (by decide) (by decide)
    (by decide) (by decide) (by decide) (by decide)

namespace AndroidAgentS2

/-- Appending a fresh key at the end of an association list makes it the
looked-up value when the key was absent before. -/
lemma lookup_append_fresh (kb : List (String × String)) (k a : String)
    (h : kb.lookup k = none) : (kb ++ [(k, a)]).lookup k = some a := by
  induction kb with
  | nil => simp [List.lookup]
  | cons p rest ih =>
      obtain ⟨q, v⟩ := p
      rw [List.cons_append]
      cases hkq : (k == q) with
      | true =>
          simp only [List.lookup, hkq] at h
          exact Option.noConfusion h
      | false =>
          simp only [List.lookup, hkq] at h ⊢
          exact ih h

/-- Writing under a key that is already present leaves the narrative
journal unchanged. -/
lemma narrative_write_present (kb : List (String × String)) (k v : String)
    (h : (kb.lookup k).isSome = true) :
    update_narrative_memory kb k v = kb := by
  simp [update_narrative_memory, h]

/-- Writing under a key that is already present leaves the episodic
journal unchanged. -/
lemma episodic_write_present (kb : List (String × String)) (k v : String)
    (h : (kb.lookup k).isSome = true) :
    update_episodic_memory kb k v = kb := by
  simp [update_episodic_memory, h]

end AndroidAgentS2

open AndroidAgentS2 in
/-- C4: both memory journals are first-write-wins.  Writing summary `a`
under a fresh key `k` and then writing `b` under the same `k` leaves the
journal unchanged by the second write, and reading `k` back still yields
`a`, for the narrative and the episodic journal alike. -/
theorem C4_memory_first_write_wins
    (kb : List (String × String)) (k a b : String)
    (h : kb.lookup k = none) :
    update_narrative_memory (update_narrative_memory kb k a) k b
        = update_narrative_memory kb k a ∧
      (update_narrative_memory kb k a).lookup k = some a ∧
      update_episodic_memory (update_episodic_memory kb k a) k b
        = update_episodic_memory kb k a ∧
      (update_episodic_memory kb k a).lookup k = some a := by
  have hfreshN : update_narrative_memory kb k a = kb ++ [(k, a)] := by
    simp [update_narrative_memory, h]
  have hfreshE : update_episodic_memory kb k a = kb ++ [(k, a)] := by
    simp [update_episodic_memory, h]
  have hn : (update_narrative_memory kb k a).lookup k = some a := by
    rw [hfreshN]
    exact lookup_append_fresh kb k a h
  have he : (update_episodic_memory kb k a).lookup k = some a := by
    rw [hfreshE]
    exact lookup_append_fresh kb k a h
  refine ⟨?_, hn, ?_, he⟩
  · exact narrative_write_present _ k b (by rw [hn]; rfl)
  · exact episodic_write_present _ k b (by rw [he]; rfl)

open AndroidAgentS2 in
/-- Witness for C4 on the empty journal with key `"Task: open settings"`. -/
theorem C4_witness :
    update_narrative_memory
        (update_narrative_memory [] "Task: open settings" "summary A")
        "Task: open settings" "summary B"
        = update_narrative_memory [] "Task: open settings" "summary A" ∧
      (update_narrative_memory [] "Task: open settings" "summary A").lookup
          "Task: open settings" = some "summary A" ∧
      update_episodic_memory
          (update_episodic_memory [] "Task: open settings" "summary A")
          "Task: open settings" "summary B"
        = update_episodic_memory [] "Task: open settings" "summary A" ∧
      (update_episodic_memory [] "Task: open settings" "summary A").lookup
          "Task: open settings" = some "summary A" :=
  C4_memory_first_write_wins [] "Task: open settings" "summary A" "summary B"
    (by decide)

open AndroidAgentS2 AndroidVerifierAgent in
/-- C5: for every verifier oracle reply whose upper-cased text contains
neither the PASS nor the FAIL verification-result marker,
`verify_execution` reports success (the optimistic default); the embedded
function is total, so no exception is possible. -/
theorem C5_unparseable_verdict_defaults_to_pass
    (history : List VerificationRecord) (manager_goal response : String)
    (hp : pyContains (PyStr.upper response) "VERIFICATION_RESULT: PASS" = false)
    (hf : pyContains (PyStr.upper response) "VERIFICATION_RESULT: FAIL" = false) :
    ((verify_execution history manager_goal response).1).1 = true := by
  unfold verify_execution parse_verification_response
  simp [hp, hf]

open AndroidAgentS2 AndroidVerifierAgent in
/-- Witness for C5 on a free-text reply with no verdict marker. -/
theorem C5_witness :
    ((verify_execution [] "Open Settings: go to settings"
        "The execution looks plausible but I cannot tell.").1).1 = true :=
  C5_unparseable_verdict_defaults_to_pass [] "Open Settings: go to settings"
    "The execution looks plausible but I cannot tell." (by decide) (by decide)

open AndroidAgentS2 AndroidWorker in
/-- C6 counterexample: on an oracle reply with no parseable reasoning or
action, `generate_next_action` returns the failure-marked string
`FAIL: Could not parse plan output` — an action list that carries a FAIL
marker and no wait action — rather than the no-op wait fallback the claim
describes. -/
theorem C6_counterexample_parse_failure_returns_fail_code :
    generate_next_action_result (α := Unit) (fun _ => none) (fun _ => "")
        "I will click the settings icon."
        = [WorkerAction.code "FAIL: Could not parse plan output"] ∧
      pyContains "FAIL: Could not parse plan output" "wait" = false ∧
      pyContains "FAIL: Could not parse plan output" "FAIL" = true := by
  decide

open AndroidAgentS2 AndroidWorker in
/-- C6 (amended): `generate_next_action` never raises on an unparseable
oracle reply and never falls back to a wait action there; instead it
returns a single failure-marked string.  When the reasoning string or the
action text cannot be parsed as a truthy string, the result is
`FAIL: Could not parse plan output`; when both parse but the bracketed
action is not valid JSON (`extract_json` yields nothing), the result is
`FAIL: Could not parse JSON action`.  The wait fallback of the source
applies only to unexpected exceptions during parsing or execution, which
neither path raises. -/
theorem C6_amended_parse_failure_returns_fail_string
    {α : Type} (litParse : String → Option α) (dumps : α → String)
    (plan : String) :
    (truthy (parse_reason_action_output litParse dumps plan).1 = false ∨
        truthy (parse_reason_action_output litParse dumps plan).2 = false →
      generate_next_action_result litParse dumps plan
        = [WorkerAction.code "FAIL: Could not parse plan output"]) ∧
      (truthy (parse_reason_action_output litParse dumps plan).1 = true →
        truthy (parse_reason_action_output litParse dumps plan).2 = true →
        extract_json litParse
            ((parse_reason_action_output litParse dumps plan).2.getD "") = none →
        generate_next_action_result litParse dumps plan
          = [WorkerAction.code "FAIL: Could not parse JSON action"]) := by
  constructor
  · intro h
    unfold generate_next_action_result
    rcases h with h | h <;> simp [h]
  · intro h1 h2 h3
    unfold generate_next_action_result
    simp [h1, h2, h3]

open AndroidAgentS2 AndroidWorker in
/-- Witness for the amended C6: a markerless reply takes the
plan-output fallback, and a reply whose bracketed action is not valid JSON
takes the JSON-action fallback. -/
theorem C6_amended_witness :
    generate_next_action_result (α := Unit) (fun _ => none) (fun _ => "")
        "Let me think about the next step."
        = [WorkerAction.code "FAIL: Could not parse plan output"] ∧
      generate_next_action_result (α := Unit) (fun _ => none) (fun _ => "")
          "Reason: tap it Action: \x7bbroken json\x7d"
        = [WorkerAction.code "FAIL: Could not parse JSON action"] :=
  ⟨(C6_amended_parse_failure_returns_fail_string (fun _ => none) (fun _ => "")
      "Let me think about the next step.").1 (by decide),
    (C6_amended_parse_failure_returns_fail_string (fun _ => none) (fun _ => "")
      "Reason: tap it Action: \x7bbroken json\x7d").2
      (by decide) (by decide) (by decide)⟩

open AndroidACI in
/-- C8: every integer index outside `[0, number of UI elements - 1]` makes
each index-targeted actuator operation return the failure-marked
out-of-range string and execute no environment action; the embedded
operations are total, so no exception is possible. -/
theorem C8_out_of_range_index_fails_without_env_action
    (ui_elements : List UIElement) (index : Int) (text : String)
    (h : index < 0 ∨ (ui_elements.length : Int) ≤ index) :
    click_by_index ui_elements index
        = (indexOutOfRangeMsg index ui_elements.length, none) ∧
      long_click_by_index ui_elements index
        = (indexOutOfRangeMsg index ui_elements.length, none) ∧
      type_by_index ui_elements index text
        = (indexOutOfRangeMsg index ui_elements.length, none) := by
  unfold click_by_index long_click_by_index type_by_index
  rw [if_pos h, if_pos h, if_pos h]
  exact ⟨rfl, rfl, rfl⟩

open AndroidAgentS2 AndroidACI in
/-- Witness for C8 at index 3 on an empty element list, checking that the
returned string is FAIL-marked. -/
theorem C8_witness :
    pyContains (indexOutOfRangeMsg 3 0) "FAIL" = true ∧
      (click_by_index [] 3 = (indexOutOfRangeMsg 3 0, none) ∧
        long_click_by_index [] 3 = (indexOutOfRangeMsg 3 0, none) ∧
        type_by_index [] 3 "hello" = (indexOutOfRangeMsg 3 0, none)) :=
  ⟨by decide,
    C8_out_of_range_index_fails_without_env_action [] 3 "hello" (by decide)⟩

namespace AndroidWorker

/-- Removing the turn at index 1 never touches the head (the system turn at
index 0 survives every eviction). -/
lemma head_eraseIdx_one (l : List String) : (l.eraseIdx 1).head? = l.head? := by
  cases l with
  | nil => rfl
  | cons a t => cases t <;> rfl

end AndroidWorker

open AndroidWorker in
/-- C9: the Executor's conversation history is bounded.  Whenever a
`generate_next_action` call starts from agents within their windows (as
every call since `reset` does), it ends — after the closing
`flush_messages` — with the generator agent holding at most
`2 * max_trajector_length + 1` turns and the reflection agent at most
`max_trajector_length + 1` turns, and eviction only ever removes the turns
at index 1, the oldest non-system turns, so the head turn survives. -/
theorem C9_message_window_bounds_preserved
    (max_trajector_length : Nat) (generator_agent reflection_agent : LMMAgentState)
    (reflection_turn generator_turn plan_turn : String)
    (hg : generator_agent.messages.length ≤ 2 * max_trajector_length + 1)
    (hr : reflection_agent.messages.length ≤ max_trajector_length + 1) :
    ((generate_next_action_messages max_trajector_length generator_agent
        reflection_agent reflection_turn generator_turn plan_turn).1).messages.length
        ≤ 2 * max_trajector_length + 1 ∧
      ((generate_next_action_messages max_trajector_length generator_agent
          reflection_agent reflection_turn generator_turn plan_turn).2).messages.length
        ≤ max_trajector_length + 1 ∧
      ((generate_next_action_messages max_trajector_length generator_agent
          reflection_agent reflection_turn generator_turn plan_turn).1).messages.head?
        = (generator_agent.messages ++ [generator_turn, plan_turn]).head? ∧
      ((generate_next_action_messages max_trajector_length generator_agent
          reflection_agent reflection_turn generator_turn plan_turn).2).messages.head?
        = (reflection_agent.messages ++ [reflection_turn]).head? := by
  dsimp only [generate_next_action_messages, flush_messages, add_message,
    remove_message_at]
  refine ⟨?_, ?_, ?_, ?_⟩
  · split
    · rename_i hover
      simp only [List.length_eraseIdx, List.length_append, List.length_cons,
        List.length_nil] at hover ⊢
      split_ifs <;> omega
    · rename_i hunder
      simp only [List.length_append, List.length_cons, List.length_nil]
        at hunder ⊢
      omega
  · split
    · rename_i hover
      simp only [List.length_eraseIdx, List.length_append, List.length_cons,
        List.length_nil] at hover ⊢
      split_ifs <;> omega
    · rename_i hunder
      simp only [List.length_append, List.length_cons, List.length_nil]
        at hunder ⊢
      omega
  · split
    · simp [head_eraseIdx_one, List.append_assoc]
    · simp [List.append_assoc]
  · split
    · simp [head_eraseIdx_one]
    · rfl

open AndroidWorker in
/-- Witness for C9 with the source's window length 8, a generator agent
already at its bound of 17 turns, and a reflection agent at 9 turns. -/
theorem C9_witness :
    ((generate_next_action_messages 8
        ⟨List.replicate 17 "turn"⟩ ⟨List.replicate 9 "turn"⟩
        "reflection" "user" "plan").1).messages.length ≤ 2 * 8 + 1 ∧
      ((generate_next_action_messages 8
          ⟨List.replicate 17 "turn"⟩ ⟨List.replicate 9 "turn"⟩
          "reflection" "user" "plan").2).messages.length ≤ 8 + 1 ∧
      ((generate_next_action_messages 8
          ⟨List.replicate 17 "turn"⟩ ⟨List.replicate 9 "turn"⟩
          "reflection" "user" "plan").1).messages.head?
        = ((List.replicate 17 "turn") ++ ["user", "plan"]).head? ∧
      ((generate_next_action_messages 8
          ⟨List.replicate 17 "turn"⟩ ⟨List.replicate 9 "turn"⟩
          "reflection" "user" "plan").2).messages.head?
        = ((List.replicate 9 "turn") ++ ["reflection"]).head? :=
  C9_message_window_bounds_preserved 8 ⟨List.replicate 17 "turn"⟩
    ⟨List.replicate 9 "turn"⟩ "reflection" "user" "plan" (by decide) (by decide)
